import Mathlib

/-!
# Fast-crm authentication core: shallow embedding and verification

This file embeds the authentication and session-token core of the Fast-crm
backend (`auth.py`, `dependencies.py`, `routers/auth.py`, `models.py`) as
executable Lean definitions, and proves or refutes the specified properties.

Modelling conventions:
* time is a `Nat` (seconds); `datetime.utcnow()` becomes an explicit `now`
  argument;
* the SQLAlchemy tables become lists of records (`List User`,
  `List RefreshToken`); `query(...).filter(...).first()` becomes `List.find?`,
  `.delete()` becomes `List.filter` / `List.eraseP`, `db.add` appends;
* randomly generated strings (`secrets.token_urlsafe`) and autoincremented ids
  become explicit `fresh` arguments;
* the bcrypt primitives are abstract function parameters (the code treats them
  as opaque), while the length validation around them is embedded faithfully;
* a JWT is modelled as either malformed or a signed pair of key and claims;
  `jose.jwt.decode` succeeds exactly when the key matches and the token is
  unexpired, raising (modelled as `Except.error`) otherwise.
-/

namespace FastCRM

/-! ## Data model (`models.py`) -/

/-- `models.UserRole`: the closed set of user roles. -/
inductive UserRole where
  | basic_user
  | premium_user
  | admin
deriving DecidableEq, Repr

/-- `models.User`: columns relevant to the auth core.  The `is_active`
column is a `"true"`/`"false"` string in the schema, kept as `String`. -/
structure User where
  id : Nat
  email : String
  hashed_password : String
  full_name : Option String
  role : UserRole
  is_active : String
deriving DecidableEq, Repr

/-- `models.RefreshToken`: persisted refresh-token record. -/
structure RefreshToken where
  id : Nat
  token : String
  user_id : Nat
  expires_at : Nat
  is_active : String
  last_used_at : Option Nat
  device_info : Option String
deriving DecidableEq, Repr

/-! ## `auth.py`: secret-key startup check, password hashing, token codec -/

/-- The known placeholder value rejected at startup (`auth.py` line 35). -/
def PLACEHOLDER_SECRET : String := "change_this_secret_in_prod"

/-- `auth.py` lines 31-36: validation of the signing secret at import time.
`none` models an unset environment variable; an empty string is falsy in
Python, so it hits the same `if not SECRET_KEY` check. -/
def checkSecretKey : Option String → Except String String
  | none => .error "CRM_SECRET_KEY environment variable must be set for security"
  | some s =>
    if s = "" then
      .error "CRM_SECRET_KEY environment variable must be set for security"
    else if s.length < 32 then
      .error "SECRET_KEY must be at least 32 characters long for security"
    else if s = PLACEHOLDER_SECRET then
      .error "SECRET_KEY must be changed from default value for security"
    else
      .ok s

/-- `auth.py` line 38. -/
def ACCESS_TOKEN_EXPIRE_MINUTES : Nat := 60

/-- `auth.py` line 39. -/
def REFRESH_TOKEN_EXPIRE_DAYS : Nat := 30

/-- `auth.py` `get_password_hash`: validates length (UTF-8 bytes > 72
rejected, fewer than 8 characters rejected) before hashing.  `bcryptHash`
abstracts `pwd_context.hash`. -/
def get_password_hash (bcryptHash : String → String) (password : String) :
    Except String String :=
  if password.utf8ByteSize > 72 then
    .error "Password too long (max 72 characters)"
  else if password.length < 8 then
    .error "Password too short (min 8 characters)"
  else
    .ok (bcryptHash password)

/-- `auth.py` `verify_password`: rejects over-long passwords, then defers to
the bcrypt comparison `bcryptVerify` (abstracting `pwd_context.verify`). -/
def verify_password (bcryptVerify : String → String → Bool)
    (plain_password hashed_password : String) : Bool :=
  if plain_password.utf8ByteSize > 72 then false
  else bcryptVerify plain_password hashed_password

/-- JWT claims: subject and absolute expiry (`sub`, `exp`). -/
structure Claims where
  sub : String
  exp : Nat
deriving DecidableEq, Repr

/-- An access-token string, as the codec sees it: either not a well-formed
signed token at all, or a token signed with some key carrying some claims. -/
inductive AccessToken where
  | malformed
  | signed (key : String) (claims : Claims)
deriving DecidableEq, Repr

/-- `jose.jwt.decode(token, secret, algorithms=[ALGORITHM])`: raises
`JWTError` (modelled as `.error`) on malformed input, signature mismatch, or
expiry in the past; otherwise returns the claims. -/
def jwt_decode (secret : String) (now : Nat) : AccessToken → Except String Claims
  | .malformed => .error "JWTError: malformed token"
  | .signed key c =>
    if key ≠ secret then .error "JWTError: signature verification failed"
    else if c.exp < now then .error "JWTError: signature has expired"
    else .ok c

/-- `auth.py` `decode_access_token`: wraps `jwt.decode`, catching `JWTError`
and returning `None`. -/
def decode_access_token (secret : String) (now : Nat) (token : AccessToken) :
    Option Claims :=
  match jwt_decode secret now token with
  | .ok payload => some payload
  | .error _ => none

/-- `auth.py` `create_access_token` specialised to how `create_token_pair`
calls it: claims `sub` with absolute expiry `now + expireSeconds`, signed
with the process secret. -/
def create_access_token (secret : String) (now : Nat) (sub : String)
    (expireSeconds : Nat) : AccessToken :=
  .signed secret { sub := sub, exp := now + expireSeconds }

/-- The wire shape returned by login/refresh (`schemas.Token`). -/
structure TokenPair where
  access_token : AccessToken
  refresh_token : String
  token_type : String
  expires_in : Nat
deriving DecidableEq, Repr

/-- `auth.py` `create_token_pair`: mints a one-hour access token and pairs it
with the freshly generated refresh-token string. -/
def create_token_pair (secret : String) (now : Nat) (user_id : Nat)
    (freshRefresh : String) : TokenPair :=
  { access_token :=
      create_access_token secret now (toString user_id)
        (ACCESS_TOKEN_EXPIRE_MINUTES * 60)
    refresh_token := freshRefresh
    token_type := "bearer"
    expires_in := ACCESS_TOKEN_EXPIRE_MINUTES * 60 }

/-- `auth.py` `get_refresh_token_expire_time`: now + 30 days (in seconds). -/
def get_refresh_token_expire_time (now : Nat) : Nat :=
  now + REFRESH_TOKEN_EXPIRE_DAYS * 86400

/-! ## `dependencies.py`: user lookup, authentication, token store, policy -/

/-- `dependencies.get_user_by_email`. -/
def get_user_by_email (users : List User) (email : String) : Option User :=
  users.find? (fun u => u.email == email)

/-- `dependencies.get_user`. -/
def get_user (users : List User) (user_id : Nat) : Option User :=
  users.find? (fun u => u.id == user_id)

/-- `dependencies.authenticate_user`: `False` (here `none`) both when the
email is unknown and when the password does not verify. -/
def authenticate_user (bcryptVerify : String → String → Bool)
    (users : List User) (email password : String) : Option User :=
  match get_user_by_email users email with
  | none => none
  | some user =>
    if verify_password bcryptVerify password user.hashed_password then some user
    else none

/-- `dependencies.create_refresh_token_db`: inserts a new active record with
expiry now + 30 days.  `freshId` models the autoincremented primary key. -/
def create_refresh_token_db (db : List RefreshToken) (user_id : Nat)
    (refresh_token : String) (freshId : Nat) (now : Nat)
    (device_info : Option String) : List RefreshToken :=
  db ++ [{ id := freshId
           token := refresh_token
           user_id := user_id
           expires_at := get_refresh_token_expire_time now
           is_active := "true"
           last_used_at := none
           device_info := device_info }]

/-- `dependencies.get_refresh_token_db`: first record whose token string
matches AND whose `is_active` column is the string `"true"`. -/
def get_refresh_token_db (db : List RefreshToken) (refresh_token : String) :
    Option RefreshToken :=
  db.find? (fun t => t.token == refresh_token && t.is_active == "true")

/-- `dependencies.invalidate_refresh_token`: flips `is_active` to `"false"`
on the record `get_refresh_token_db` finds (the first active match), if any. -/
def invalidate_refresh_token : List RefreshToken → String → List RefreshToken
  | [], _ => []
  | t :: rest, s =>
    if t.token == s && t.is_active == "true" then
      { t with is_active := "false" } :: rest
    else
      t :: invalidate_refresh_token rest s

/-- `dependencies.cleanup_expired_tokens`: deletes every record whose expiry
has passed; returns the count deleted and the remaining store. -/
def cleanup_expired_tokens (db : List RefreshToken) (now : Nat) :
    Nat × List RefreshToken :=
  ((db.filter (fun t => t.expires_at < now)).length,
   db.filter (fun t => !(t.expires_at < now)))

/-- `dependencies.check_user_permissions` role ranking table. -/
def roleLevel : UserRole → Nat
  | .basic_user => 1
  | .premium_user => 2
  | .admin => 3

/-- `dependencies.check_user_permissions`: allow iff the user's level is at
least the required level. -/
def check_user_permissions (currentRole requiredRole : UserRole) : Bool :=
  decide (roleLevel currentRole ≥ roleLevel requiredRole)

/-! ## `routers/auth.py`: the session endpoints -/

/-- Error outcomes of the refresh endpoint, by their HTTP detail. -/
inductive AuthError where
  | invalidToken
  | expiredToken
  | userNotFound
deriving DecidableEq, Repr

/-- `routers/auth.py` `register`: duplicate email yields the
"Email already registered" error before anything else; then the password is
validated and hashed; on success the new user row (role and active flag at
their column defaults) is inserted.  The OAuth2-client provisioning that
follows touches no user-visible response field modelled here. -/
def register (bcryptHash : String → String) (users : List User)
    (email password : String) (full_name : Option String) (freshId : Nat) :
    Except String (User × List User) :=
  match get_user_by_email users email with
  | some _ => .error "Email already registered"
  | none =>
    match get_password_hash bcryptHash password with
    | .error e => .error e
    | .ok hashed =>
      let user : User :=
        { id := freshId
          email := email
          hashed_password := hashed
          full_name := full_name
          role := .basic_user
          is_active := "true" }
      .ok (user, users ++ [user])

/-- `routers/auth.py` `login_for_access_token`: authenticate, mint a token
pair, persist the fresh refresh token with the device descriptor, then sweep
expired records.  Failure is the single generic message. -/
def login_for_access_token (bcryptVerify : String → String → Bool)
    (secret : String) (users : List User) (db : List RefreshToken) (now : Nat)
    (email password : String) (freshToken : String) (freshId : Nat)
    (user_agent : Option String) :
    Except String (TokenPair × List RefreshToken) :=
  match authenticate_user bcryptVerify users email password with
  | none => .error "Incorrect email or password"
  | some user =>
    let token_data := create_token_pair secret now user.id freshToken
    let db1 := create_refresh_token_db db user.id freshToken freshId now user_agent
    .ok (token_data, (cleanup_expired_tokens db1 now).2)

/-- Updates the old record's `last_used_at` column (`routers/auth.py` line
231: `db_refresh_token.last_used_at = datetime.utcnow()`). -/
def set_last_used (db : List RefreshToken) (token_id : Nat) (now : Nat) :
    List RefreshToken :=
  db.map (fun t => if t.id == token_id then { t with last_used_at := some now } else t)

/-- `routers/auth.py` `refresh_access_token` (the redeem-with-rotation flow):
look up the token among ACTIVE records; absent-or-inactive yields
invalid-token; an active record past its expiry is deleted with
expired-token; otherwise the user is resolved, a new pair is minted, the old
record is deactivated, the new refresh token is inserted, and the old
record's `last_used_at` is stamped.  Returns the outcome and the store. -/
def refresh_access_token (secret : String) (users : List User)
    (db : List RefreshToken) (now : Nat) (refresh_token : String)
    (freshToken : String) (freshId : Nat) (user_agent : Option String) :
    Except AuthError TokenPair × List RefreshToken :=
  match get_refresh_token_db db refresh_token with
  | none => (.error .invalidToken, db)
  | some dbTok =>
    if dbTok.expires_at < now then
      (.error .expiredToken, db.eraseP (fun t => t.id == dbTok.id))
    else
      match get_user users dbTok.user_id with
      | none => (.error .userNotFound, db)
      | some user =>
        let new_token_data := create_token_pair secret now user.id freshToken
        let db1 := invalidate_refresh_token db refresh_token
        let db2 := create_refresh_token_db db1 user.id freshToken freshId now user_agent
        (.ok new_token_data, set_last_used db2 dbTok.id now)

/-- `routers/auth.py` `revoke_token` (DELETE `/me/tokens/\x7btoken_id\x7d`):
look up the record by id AND owner; absent yields the 404 "Token not found"
with the store untouched; otherwise that row is deleted. -/
def revoke_token (db : List RefreshToken) (current_user_id : Nat)
    (token_id : Nat) : Except String String × List RefreshToken :=
  match db.find? (fun t => t.id == token_id && t.user_id == current_user_id) with
  | none => (.error "Token not found", db)
  | some _ =>
    (.ok "Token revoked successfully",
     db.eraseP (fun t => t.id == token_id && t.user_id == current_user_id))

/-- `routers/auth.py` `logout` (POST `/logout`): flips `is_active` to
`"false"` on EVERY active record of the calling user and returns how many it
touched. -/
def logout (db : List RefreshToken) (current_user_id : Nat) :
    Nat × List RefreshToken :=
  ((db.filter (fun t => t.user_id == current_user_id && t.is_active == "true")).length,
   db.map (fun t =>
     if t.user_id == current_user_id && t.is_active == "true" then
       { t with is_active := "false" }
     else t))

/-- `routers/auth.py` `logout_all_devices` (POST `/logout-all`): deletes
every record of the calling user, active or not, and returns the number of
rows deleted. -/
def logout_all_devices (db : List RefreshToken) (current_user_id : Nat) :
    Nat × List RefreshToken :=
  ((db.filter (fun t => t.user_id == current_user_id)).length,
   db.filter (fun t => !(t.user_id == current_user_id)))

/-! ## Store-mutating operations as a single step type

Every way the code mutates the refresh-token store, gathered so that
claims about "no operation ever ..." quantify over one inductive. -/

/-- One store-mutating call of the auth core. -/
inductive StoreOp where
  | create (user_id : Nat) (token : String) (freshId : Nat) (now : Nat)
      (device : Option String)
  | invalidate (token : String)
  | logoutOp (user_id : Nat)
  | logoutAll (user_id : Nat)
  | revoke (user_id : Nat) (token_id : Nat)
  | cleanup (now : Nat)
  | refreshOp (secret : String) (users : List User) (now : Nat)
      (token : String) (freshToken : String) (freshId : Nat)
      (user_agent : Option String)

/-- The store after running one operation. -/
def applyOp (db : List RefreshToken) : StoreOp → List RefreshToken
  | .create uid tok fid now dev => create_refresh_token_db db uid tok fid now dev
  | .invalidate s => invalidate_refresh_token db s
  | .logoutOp uid => (logout db uid).2
  | .logoutAll uid => (logout_all_devices db uid).2
  | .revoke uid tid => (revoke_token db uid tid).2
  | .cleanup now => (cleanup_expired_tokens db now).2
  | .refreshOp secret users now s ft fid ua =>
      (refresh_access_token secret users db now s ft fid ua).2

/-- Whether an operation inserts a record carrying token string `s` (only
insertions of freshly generated strings exist in the code). -/
def opIntroducesToken : StoreOp → String → Prop
  | .create _ tok _ _ _, s => tok = s
  | .refreshOp _ _ _ _ ft _ _, s => ft = s
  | _, _ => False

/-- No record with token string `s` is active in the store: `s` is not in a
usable state. -/
def noActive (db : List RefreshToken) (s : String) : Prop :=
  ∀ t ∈ db, t.token = s → t.is_active ≠ "true"

/-- Whether the process gets past the signing-key check at startup. -/
def startupSucceeds (key : Option String) : Bool :=
  match checkSecretKey key with
  | .ok _ => true
  | .error _ => false

/-- A stand-in for the opaque bcrypt hash, used to instantiate theorems on
concrete inputs. -/
def demoBcryptHash (password : String) : String := "bcrypt$" ++ password

/-- The matching stand-in for the opaque bcrypt comparison. -/
def demoBcryptVerify (plain hashed : String) : Bool := hashed == demoBcryptHash plain

/-- Whether an endpoint call succeeded. -/
def isOkE {ε α : Type} : Except ε α → Bool
  | .ok _ => true
  | .error _ => false

/-- Every record of `db'` descends from a record of `db` with the same token
string, with `is_active` either unchanged or forced to `"false"`: the shape
of every non-inserting store mutation. -/
def WeakensTo (db db' : List RefreshToken) : Prop :=
  ∀ t' ∈ db', ∃ t ∈ db,
    t'.token = t.token ∧ (t'.is_active = t.is_active ∨ t'.is_active = "false")

/-! ### Concrete data for witnesses and counterexamples -/

/-- A registered user, id 1, email `a@x.com`. -/
def demoUser : User :=
  { id := 1
    email := "a@x.com"
    hashed_password := demoBcryptHash "password123"
    full_name := some "Demo User"
    role := .basic_user
    is_active := "true" }

/-- A second registered user, id 2. -/
def demoUser2 : User :=
  { id := 2
    email := "c@x.com"
    hashed_password := demoBcryptHash "password456"
    full_name := none
    role := .premium_user
    is_active := "true" }

/-- The user table for concrete runs. -/
def demoUsers : List User := [demoUser, demoUser2]

/-- An active session token of user 1 (device A). -/
def tokA : RefreshToken :=
  { id := 1, token := "tokenA", user_id := 1, expires_at := 10000,
    is_active := "true", last_used_at := none, device_info := some "deviceA" }

/-- A second active session token of user 1 (device B). -/
def tokB : RefreshToken :=
  { id := 2, token := "tokenB", user_id := 1, expires_at := 10000,
    is_active := "true", last_used_at := none, device_info := some "deviceB" }

/-- An already-deactivated token of user 1. -/
def tokInactive : RefreshToken :=
  { id := 3, token := "tokenC", user_id := 1, expires_at := 10000,
    is_active := "false", last_used_at := none, device_info := none }

/-- An active session token of user 2. -/
def tokOther : RefreshToken :=
  { id := 4, token := "tokenD", user_id := 2, expires_at := 10000,
    is_active := "true", last_used_at := none, device_info := none }

/-- A record that is both deactivated and past expiry (expires_at 5). -/
def staleTok : RefreshToken :=
  { id := 7, token := "staleToken", user_id := 1, expires_at := 5,
    is_active := "false", last_used_at := none, device_info := none }

/-- A record that is still active but past expiry. -/
def expiredTok : RefreshToken :=
  { id := 8, token := "expiredToken", user_id := 1, expires_at := 5,
    is_active := "true", last_used_at := none, device_info := none }

/-- Store with one active session of user 1. -/
def demoDb1 : List RefreshToken := [tokA]

/-- Store with user 1 logged in from two devices. -/
def twoSessionDb : List RefreshToken := [tokA, tokB]

/-- Store where user 1 has one active and one inactive token. -/
def mixedDb : List RefreshToken := [tokA, tokInactive]

/-- Store holding tokens of two different users. -/
def crossDb : List RefreshToken := [tokA, tokOther]

/-- Store holding only the inactive-and-expired record. -/
def staleDb : List RefreshToken := [staleTok]

/-- Store holding only the active-but-expired record. -/
def expiredDb : List RefreshToken := [expiredTok]

end FastCRM

namespace FastCRM

/-! ## Theorems -/

/-! ### Helper lemmas on the refresh-token store -/

/-- Erasing preserves non-erased members: a member of `l` either survives
`eraseP` or satisfies the predicate. -/
theorem mem_eraseP_or_pred {α : Type} {p : α → Bool} {l : List α} {a : α}
    (h : a ∈ l) : a ∈ l.eraseP p ∨ p a = true := by
  induction l with
  | nil => cases h
  | cons x xs ih =>
    rcases List.mem_cons.mp h with rfl | hmem
    · by_cases hx : p a = true
      · exact Or.inr hx
      · rw [Bool.not_eq_true] at hx
        simp [List.eraseP_cons, hx]
    · by_cases hx : p x = true
      · simp only [List.eraseP_cons, hx, cond_true]
        exact Or.inl hmem
      · rw [Bool.not_eq_true] at hx
        simp only [List.eraseP_cons, hx, cond_false]
        rcases ih hmem with h1 | h1
        · exact Or.inl (List.mem_cons_of_mem _ h1)
        · exact Or.inr h1

/-- Members surviving `eraseP` were members before. -/
theorem mem_of_mem_eraseP {α : Type} {p : α → Bool} {l : List α} {a : α}
    (h : a ∈ l.eraseP p) : a ∈ l :=
  (List.eraseP_sublist l).subset h

/-- A record surviving `invalidate_refresh_token` descends from an original
record with the same token, unchanged or deactivated. -/
theorem weakensTo_invalidate (db : List RefreshToken) (s : String) :
    WeakensTo db (invalidate_refresh_token db s) := by
  intro t' h
  induction db with
  | nil => simp [invalidate_refresh_token] at h
  | cons t rest ih =>
    simp only [invalidate_refresh_token] at h
    by_cases hc : (t.token == s && t.is_active == "true") = true
    · rw [if_pos hc] at h
      rcases List.mem_cons.mp h with rfl | h1
      · exact ⟨t, List.mem_cons_self _ _, rfl, Or.inr rfl⟩
      · exact ⟨t', List.mem_cons_of_mem _ h1, rfl, Or.inl rfl⟩
    · rw [if_neg hc] at h
      rcases List.mem_cons.mp h with rfl | h1
      · exact ⟨t', List.mem_cons_self _ _, rfl, Or.inl rfl⟩
      · obtain ⟨u, hu, h2⟩ := ih h1
        exact ⟨u, List.mem_cons_of_mem _ hu, h2⟩

/-- A record surviving `logout` descends from an original record with the
same token, unchanged or deactivated. -/
theorem weakensTo_logout (db : List RefreshToken) (uid : Nat) :
    WeakensTo db (logout db uid).2 := by
  intro t' h
  simp only [logout] at h
  obtain ⟨t, ht, rfl⟩ := List.mem_map.mp h
  by_cases hc : (t.user_id == uid && t.is_active == "true") = true
  · exact ⟨t, ht, by simp [hc]⟩
  · exact ⟨t, ht, by simp [hc]⟩

/-- Stamping `last_used_at` changes neither token nor active flag. -/
theorem weakensTo_set_last_used (db : List RefreshToken) (tid now : Nat) :
    WeakensTo db (set_last_used db tid now) := by
  intro t' h
  simp only [set_last_used] at h
  obtain ⟨t, ht, rfl⟩ := List.mem_map.mp h
  by_cases hc : (t.id == tid) = true
  · exact ⟨t, ht, by simp [hc]⟩
  · exact ⟨t, ht, by simp [hc]⟩

/-- Any sublist of the store weakens it (covers `filter` and `eraseP`). -/
theorem weakensTo_of_subset {db db' : List RefreshToken}
    (h : ∀ t ∈ db', t ∈ db) : WeakensTo db db' :=
  fun t' h' => ⟨t', h t' h', rfl, Or.inl rfl⟩

/-- `noActive` transfers along weakening. -/
theorem noActive_of_weakensTo {db db' : List RefreshToken} {s : String}
    (hna : noActive db s) (hw : WeakensTo db db') : noActive db' s := by
  intro t' h' htok hact
  obtain ⟨t, ht, htok', hai⟩ := hw t' h'
  rcases hai with heq | hfalse
  · exact hna t ht (htok' ▸ htok) (heq ▸ hact)
  · rw [hfalse] at hact
    exact absurd hact (by decide)

/-- Inserting a record with a different token preserves `noActive`. -/
theorem noActive_create {db : List RefreshToken} {s : String}
    (hna : noActive db s) (uid : Nat) {tok : String} (fid now : Nat)
    (dev : Option String) (htok : tok ≠ s) :
    noActive (create_refresh_token_db db uid tok fid now dev) s := by
  intro t' h' heq hact
  rcases List.mem_append.mp h' with h1 | h1
  · exact hna t' h1 heq hact
  · rcases List.mem_singleton.mp h1 with rfl
    exact htok heq

/-- With pairwise-distinct token strings (the schema's unique constraint on
the token column), `invalidate_refresh_token` leaves no active record with
the invalidated string. -/
theorem noActive_invalidate {db : List RefreshToken} {s : String}
    (hp : db.Pairwise (fun a b => a.token ≠ b.token)) :
    noActive (invalidate_refresh_token db s) s := by
  induction db with
  | nil => intro t' h'; simp [invalidate_refresh_token] at h'
  | cons t rest ih =>
    rcases List.pairwise_cons.mp hp with ⟨hhead, htail⟩
    intro t' h' htok hact
    simp only [invalidate_refresh_token] at h'
    by_cases hc : (t.token == s && t.is_active == "true") = true
    · rw [if_pos hc] at h'
      rcases List.mem_cons.mp h' with rfl | h1
      · exact absurd hact (by simp)
      · have hc' : t.token = s ∧ t.is_active = "true" := by
          simpa [Bool.and_eq_true, beq_iff_eq] using hc
        exact hhead t' h1 (hc'.1.trans htok.symm)
    · rw [if_neg hc] at h'
      rcases List.mem_cons.mp h' with rfl | h1
      · exact hc (by simp [htok, hact])
      · exact ih htail t' h1 htok hact

/-- `noActive` says exactly that the active-only lookup fails. -/
theorem noActive_iff_lookup_none {db : List RefreshToken} {s : String} :
    noActive db s ↔ get_refresh_token_db db s = none := by
  unfold noActive get_refresh_token_db
  rw [List.find?_eq_none]
  constructor
  · intro h t ht
    intro hc
    have hc' : t.token = s ∧ t.is_active = "true" := by
      simpa [Bool.and_eq_true, beq_iff_eq] using hc
    exact h t ht hc'.1 hc'.2
  · intro h t ht htok hact
    exact h t ht (by simp [htok, hact])

/-- The refresh flow never reactivates or inserts a record with token `s`
unless `s` is the freshly generated replacement string. -/
theorem noActive_refresh {db : List RefreshToken} {s : String}
    (secret : String) (users : List User) (now : Nat) (tokenStr : String)
    {ft : String} (fid : Nat) (ua : Option String)
    (hna : noActive db s) (hft : ft ≠ s) :
    noActive (refresh_access_token secret users db now tokenStr ft fid ua).2 s := by
  unfold refresh_access_token
  cases hdb : get_refresh_token_db db tokenStr with
  | none => exact hna
  | some dbTok =>
    by_cases hexp : dbTok.expires_at < now
    · simp only [if_pos hexp]
      exact noActive_of_weakensTo hna
        (weakensTo_of_subset (fun t ht => mem_of_mem_eraseP ht))
    · simp only [if_neg hexp]
      cases hu : get_user users dbTok.user_id with
      | none => exact hna
      | some user =>
        have h1 : noActive (invalidate_refresh_token db tokenStr) s :=
          noActive_of_weakensTo hna (weakensTo_invalidate db tokenStr)
        have h2 := noActive_create h1 user.id fid now ua hft
        exact noActive_of_weakensTo h2
          (weakensTo_set_last_used _ dbTok.id now)

/-- No store operation ever returns a deactivated token string to the
active state, unless a fresh insertion carries that very string. -/
theorem noActive_applyOp {s : String} (db : List RefreshToken) (o : StoreOp)
    (hna : noActive db s) (hop : ¬ opIntroducesToken o s) :
    noActive (applyOp db o) s := by
  cases o with
  | create uid tok fid now dev =>
    exact noActive_create hna uid fid now dev (fun h => hop h)
  | invalidate s' =>
    exact noActive_of_weakensTo hna (weakensTo_invalidate db s')
  | logoutOp uid =>
    exact noActive_of_weakensTo hna (weakensTo_logout db uid)
  | logoutAll uid =>
    exact noActive_of_weakensTo hna
      (weakensTo_of_subset (fun t ht => List.mem_of_mem_filter ht))
  | revoke uid tid =>
    refine noActive_of_weakensTo hna (weakensTo_of_subset ?_)
    intro t ht
    simp only [applyOp, revoke_token] at ht
    rcases hdb : db.find? (fun u => u.id == tid && u.user_id == uid) with _ | tok
    · rw [hdb] at ht
      exact ht
    · rw [hdb] at ht
      exact mem_of_mem_eraseP ht
  | cleanup now =>
    exact noActive_of_weakensTo hna
      (weakensTo_of_subset (fun t ht => List.mem_of_mem_filter ht))
  | refreshOp secret users now tokenStr ft fid ua =>
    exact noActive_refresh secret users now tokenStr fid ua hna (fun h => hop h)

/-- Evaluation of the refresh flow when the active-only lookup finds
nothing (the token string is absent or its record is inactive). -/
theorem refresh_eq_of_lookup_none {secret : String} {users : List User}
    {db : List RefreshToken} {now : Nat} {s ft : String} {fid : Nat}
    {ua : Option String} (h : get_refresh_token_db db s = none) :
    refresh_access_token secret users db now s ft fid ua
      = (.error .invalidToken, db) := by
  unfold refresh_access_token
  simp only [h]

/-- Evaluation of the refresh flow on an active-but-expired record. -/
theorem refresh_eq_of_expired {secret : String} {users : List User}
    {db : List RefreshToken} {now : Nat} {s ft : String} {fid : Nat}
    {ua : Option String} {tok : RefreshToken}
    (h : get_refresh_token_db db s = some tok) (hexp : tok.expires_at < now) :
    refresh_access_token secret users db now s ft fid ua
      = (.error .expiredToken, db.eraseP (fun t => t.id == tok.id)) := by
  unfold refresh_access_token
  simp only [h, if_pos hexp]

/-- Evaluation of the refresh flow when the record's owner is missing. -/
theorem refresh_eq_of_user_none {secret : String} {users : List User}
    {db : List RefreshToken} {now : Nat} {s ft : String} {fid : Nat}
    {ua : Option String} {tok : RefreshToken}
    (h : get_refresh_token_db db s = some tok) (hexp : ¬ tok.expires_at < now)
    (hu : get_user users tok.user_id = none) :
    refresh_access_token secret users db now s ft fid ua
      = (.error .userNotFound, db) := by
  unfold refresh_access_token
  simp only [h, if_neg hexp, hu]

/-- Evaluation of the successful rotation: deactivate the old record,
insert the fresh one, stamp the old record's last-used time. -/
theorem refresh_eq_of_ok {secret : String} {users : List User}
    {db : List RefreshToken} {now : Nat} {s ft : String} {fid : Nat}
    {ua : Option String} {tok : RefreshToken} {user : User}
    (h : get_refresh_token_db db s = some tok) (hexp : ¬ tok.expires_at < now)
    (hu : get_user users tok.user_id = some user) :
    refresh_access_token secret users db now s ft fid ua
      = (.ok (create_token_pair secret now user.id ft),
         set_last_used
           (create_refresh_token_db (invalidate_refresh_token db s)
             user.id ft fid now ua) tok.id now) := by
  unfold refresh_access_token
  simp only [h, if_neg hexp, hu]

/-- A successful rotation presupposes an active unexpired record and a
resolvable owner. -/
theorem refresh_ok_inv {secret : String} {users : List User}
    {db : List RefreshToken} {now : Nat} {s ft : String} {fid : Nat}
    {ua : Option String} {pair : TokenPair}
    (hok : (refresh_access_token secret users db now s ft fid ua).1 = .ok pair) :
    ∃ tok user, get_refresh_token_db db s = some tok ∧
      ¬ tok.expires_at < now ∧ get_user users tok.user_id = some user := by
  cases hdb : get_refresh_token_db db s with
  | none =>
    rw [refresh_eq_of_lookup_none hdb] at hok
    simp at hok
  | some tok =>
    by_cases hexp : tok.expires_at < now
    · rw [refresh_eq_of_expired hdb hexp] at hok
      simp at hok
    · cases hu : get_user users tok.user_id with
      | none =>
        rw [refresh_eq_of_user_none hdb hexp hu] at hok
        simp at hok
      | some user =>
        exact ⟨tok, user, rfl, hexp, hu⟩

/-- C5: a password whose UTF-8 byte-length exceeds 72 or whose character
length is below 8 is rejected by `get_password_hash` with a validation
error (no silent truncation or acceptance); every password with at least 8
characters and at most 72 UTF-8 bytes is hashed and the hash returned. -/
theorem password_length_policy (bcryptHash : String → String) (p : String) :
    ((p.utf8ByteSize > 72 ∨ p.length < 8) →
       ∃ e, get_password_hash bcryptHash p = .error e) ∧
    (8 ≤ p.length → p.utf8ByteSize ≤ 72 →
       get_password_hash bcryptHash p = .ok (bcryptHash p)) := by
  constructor
  · rintro (h | h)
    · exact ⟨"Password too long (max 72 characters)", by simp [get_password_hash, h]⟩
    · by_cases h72 : p.utf8ByteSize > 72
      · exact ⟨"Password too long (max 72 characters)", by simp [get_password_hash, h72]⟩
      · exact ⟨"Password too short (min 8 characters)", by simp [get_password_hash, h72, h]⟩
  · intro h8 h72
    unfold get_password_hash
    rw [if_neg (by omega), if_neg (by omega)]

/-- Witness for C5: the 5-character password "short" is rejected, the
11-character ASCII password "password123" is hashed. -/
theorem password_length_policy_witness :
    (∃ e, get_password_hash demoBcryptHash "short" = .error e) ∧
    get_password_hash demoBcryptHash "password123"
      = .ok (demoBcryptHash "password123") :=
  ⟨(password_length_policy demoBcryptHash "short").1 (Or.inr (by decide)),
   (password_length_policy demoBcryptHash "password123").2 (by decide) (by decide)⟩

/-- C6: access-token verification is total (a Lean function on every
`AccessToken`) and fails closed: a successful decode implies the token was
signed with the server secret, carries exactly the returned claims, and is
unexpired; malformed tokens, wrong-key signatures, and past expiry all
yield `none` rather than an exception. -/
theorem decode_access_token_fails_closed (secret : String) (now : Nat) :
    (∀ t p, decode_access_token secret now t = some p →
        t = .signed secret p ∧ ¬ p.exp < now) ∧
    decode_access_token secret now .malformed = none ∧
    (∀ key c, key ≠ secret → decode_access_token secret now (.signed key c) = none) ∧
    (∀ key c, c.exp < now → decode_access_token secret now (.signed key c) = none) := by
  refine ⟨?_, rfl, ?_, ?_⟩
  · intro t p h
    cases t with
    | malformed => simp [decode_access_token, jwt_decode] at h
    | signed key c =>
      by_cases hk : key = secret
      · subst hk
        by_cases he : c.exp < now
        · simp [decode_access_token, jwt_decode, he] at h
        · simp [decode_access_token, jwt_decode, he] at h
          subst h
          exact ⟨rfl, he⟩
      · simp [decode_access_token, jwt_decode, hk] at h
  · intro key c hk
    simp [decode_access_token, jwt_decode, hk]
  · intro key c he
    by_cases hk : key = secret
    · subst hk; simp [decode_access_token, jwt_decode, he]
    · simp [decode_access_token, jwt_decode, hk]

/-- Witness for C6: with secret "k" at time 5, a valid token decodes to its
claims, and each failure mode yields `none`. -/
theorem decode_access_token_fails_closed_witness :
    (AccessToken.signed "k" { sub := "1", exp := 10 }
        = AccessToken.signed "k" { sub := "1", exp := 10 }
      ∧ ¬ (10 : Nat) < 5) ∧
    decode_access_token "k" 5 .malformed = none ∧
    decode_access_token "k" 5 (.signed "j" { sub := "1", exp := 10 }) = none ∧
    decode_access_token "k" 5 (.signed "k" { sub := "1", exp := 3 }) = none :=
  ⟨(decode_access_token_fails_closed "k" 5).1
      (.signed "k" { sub := "1", exp := 10 }) { sub := "1", exp := 10 } (by decide),
   (decode_access_token_fails_closed "k" 5).2.1,
   (decode_access_token_fails_closed "k" 5).2.2.1 "j" { sub := "1", exp := 10 } (by decide),
   (decode_access_token_fails_closed "k" 5).2.2.2 "k" { sub := "1", exp := 3 } (by decide)⟩

/-- C7: the startup signing-key check passes if and only if a secret of at
least 32 characters differing from the placeholder is supplied; a missing,
empty, short, or placeholder secret makes `checkSecretKey` raise (return
`.error`), so the service refuses to start. -/
theorem secret_key_startup_check (key : Option String) :
    startupSucceeds key = true ↔
      ∃ s, key = some s ∧ 32 ≤ s.length ∧ s ≠ PLACEHOLDER_SECRET := by
  cases key with
  | none =>
    simp [startupSucceeds, checkSecretKey]
  | some s =>
    have hiff :
        (∃ s', (some s : Option String) = some s' ∧ 32 ≤ s'.length
            ∧ s' ≠ PLACEHOLDER_SECRET)
          ↔ (32 ≤ s.length ∧ s ≠ PLACEHOLDER_SECRET) := by
      constructor
      · rintro ⟨s', hs, h⟩
        cases Option.some.inj hs
        exact h
      · intro h
        exact ⟨s, rfl, h⟩
    rw [hiff]
    simp only [startupSucceeds, checkSecretKey]
    split_ifs with h0 h32 hph
    · subst h0
      simp
    · simp
      intro h
      omega
    · subst hph
      simp
    · simp [h32, hph]
      omega

/-- C8: the permission check allows access iff the identity's numeric role
level (basic 1, premium 2, admin 3) is at least the required level; in
particular premium is denied admin and allowed basic and premium. -/
theorem role_hierarchy_check :
    roleLevel .basic_user = 1 ∧ roleLevel .premium_user = 2 ∧ roleLevel .admin = 3 ∧
    (∀ u r : UserRole, check_user_permissions u r = true ↔ roleLevel r ≤ roleLevel u) ∧
    check_user_permissions .premium_user .admin = false ∧
    check_user_permissions .premium_user .basic_user = true ∧
    check_user_permissions .premium_user .premium_user = true := by
  refine ⟨rfl, rfl, rfl, ?_, rfl, rfl, rfl⟩
  intro u r
  simp [check_user_permissions, ge_iff_le]

/-- C1: once a refresh token string is successfully redeemed (rotated), no
record with that string remains active, any subsequent redeem call
presenting the same string fails with the invalid-token error and leaves
the store untouched, and no store operation ever returns a deactivated
token string to the active state (short of inserting a record that carries
that very string, which the fresh random generation rules out).
Hypotheses: the schema's unique constraint on the token column, and
freshness of the generated replacement string. -/
theorem refresh_token_single_use (secret : String) (users : List User)
    (db : List RefreshToken) (now : Nat) (s freshToken : String)
    (freshId : Nat) (user_agent : Option String) (pair : TokenPair)
    (huniq : db.Pairwise (fun a b => a.token ≠ b.token))
    (hfresh : freshToken ≠ s)
    (hok : (refresh_access_token secret users db now s freshToken freshId user_agent).1
            = .ok pair) :
    noActive (refresh_access_token secret users db now s freshToken freshId user_agent).2 s ∧
    (∀ secret' users' now' ft' fid' ua',
       refresh_access_token secret' users'
           (refresh_access_token secret users db now s freshToken freshId user_agent).2
           now' s ft' fid' ua'
         = (.error .invalidToken,
            (refresh_access_token secret users db now s freshToken freshId user_agent).2)) ∧
    (∀ db₀ o, noActive db₀ s → ¬ opIntroducesToken o s →
       noActive (applyOp db₀ o) s) := by
  obtain ⟨tok, user, hdb, hexp, hu⟩ := refresh_ok_inv hok
  have hna : noActive
      (refresh_access_token secret users db now s freshToken freshId user_agent).2 s := by
    rw [refresh_eq_of_ok hdb hexp hu]
    have h1 : noActive (invalidate_refresh_token db s) s :=
      noActive_invalidate huniq
    have h2 := noActive_create h1 user.id freshId now user_agent hfresh
    exact noActive_of_weakensTo h2 (weakensTo_set_last_used _ tok.id now)
  refine ⟨hna, ?_, noActive_applyOp⟩
  intro secret' users' now' ft' fid' ua'
  exact refresh_eq_of_lookup_none (noActive_iff_lookup_none.mp hna)

/-- Witness for C1: user 1 redeems "tokenA" once against a store with one
active session; replaying "tokenA" against the resulting store fails with
invalid-token and changes nothing. -/
theorem refresh_token_single_use_witness :
    refresh_access_token "k" demoUsers
        (refresh_access_token "k" demoUsers demoDb1 100 "tokenA" "freshT" 5 none).2
        200 "tokenA" "freshT2" 6 none
      = (.error .invalidToken,
         (refresh_access_token "k" demoUsers demoDb1 100 "tokenA" "freshT" 5 none).2) :=
  (refresh_token_single_use "k" demoUsers demoDb1 100 "tokenA" "freshT" 5 none
      (create_token_pair "k" 100 1 "freshT")
      (by simp [demoDb1, List.pairwise_singleton])
      (by decide) rfl).2.1 "k" demoUsers 200 "freshT2" 6 none

/-- C2 counterexample: user 1 is logged in from two devices ("tokenA" and
"tokenB"); calling logout (the single-session logout of the claim, during a
session presenting "tokenA") deactivates BOTH records, and the other
device's token "tokenB" is no longer redeemable — refuting the claim that
every non-presented token of the identity stays active and redeemable. -/
theorem logout_revokes_other_sessions_too :
    (logout twoSessionDb 1).2.map (fun t => (t.token, t.is_active))
        = [("tokenA", "false"), ("tokenB", "false")] ∧
    get_refresh_token_db (logout twoSessionDb 1).2 "tokenB" = none :=
  ⟨rfl, rfl⟩

/-- C2 amended: the logout endpoint does not take a presented refresh token
at all; it deactivates EVERY active refresh token of the calling identity
(returning their count), leaves other identities' records untouched, and
afterwards none of the identity's tokens is redeemable.  (Per-token
revocation exists separately as the revoke-session endpoint.) -/
theorem logout_invalidates_every_own_session (db : List RefreshToken) (uid : Nat)
    (hflags : ∀ t ∈ db, t.is_active = "true" ∨ t.is_active = "false") :
    (logout db uid).1
        = (db.filter (fun t => t.user_id == uid && t.is_active == "true")).length ∧
    (∀ t' ∈ (logout db uid).2, t'.user_id = uid → t'.is_active = "false") ∧
    (∀ t ∈ db, t.user_id ≠ uid → t ∈ (logout db uid).2) ∧
    (∀ s, (∀ t ∈ db, t.token = s → t.user_id = uid) →
       get_refresh_token_db (logout db uid).2 s = none) := by
  refine ⟨rfl, ?_, ?_, ?_⟩
  · intro t' h' huid
    simp only [logout] at h'
    obtain ⟨t, ht, rfl⟩ := List.mem_map.mp h'
    by_cases hc : (t.user_id == uid && t.is_active == "true") = true
    · simp [hc]
    · simp only [if_neg hc] at huid ⊢
      rcases hflags t ht with h1 | h1
      · exact absurd (by simp [huid, h1]) hc
      · exact h1
  · intro t ht hne
    simp only [logout]
    refine List.mem_map.mpr ⟨t, ht, ?_⟩
    rw [if_neg (by simp [hne])]
  · intro s hs
    rw [← noActive_iff_lookup_none]
    intro t' h' htok hact
    simp only [logout] at h'
    obtain ⟨t, ht, rfl⟩ := List.mem_map.mp h'
    by_cases hc : (t.user_id == uid && t.is_active == "true") = true
    · rw [if_pos hc] at hact
      simp at hact
    · rw [if_neg hc] at htok hact
      have huid : t.user_id = uid := hs t ht htok
      exact hc (by simp [huid, hact])

/-- Witness for C2 amended: on the two-device store the count is the number
of active sessions and "tokenA" is no longer redeemable after logout. -/
theorem logout_invalidates_every_own_session_witness :
    (logout twoSessionDb 1).1
        = (twoSessionDb.filter (fun t => t.user_id == 1 && t.is_active == "true")).length ∧
    get_refresh_token_db (logout twoSessionDb 1).2 "tokenA" = none :=
  ⟨(logout_invalidates_every_own_session twoSessionDb 1 (by decide)).1,
   (logout_invalidates_every_own_session twoSessionDb 1 (by decide)).2.2.2
     "tokenA" (by decide)⟩

/-- C3 counterexample: user 1 holds one active and one already-inactive
token; logout-all returns 2 (all rows deleted) although exactly 1 token was
active immediately before the call — refuting the claim that the returned
count equals the number of previously ACTIVE tokens. -/
theorem logout_all_count_includes_inactive_tokens :
    (logout_all_devices mixedDb 1).1 = 2 ∧
    (mixedDb.filter (fun t => t.user_id == 1 && t.is_active == "true")).length = 1 :=
  ⟨rfl, rfl⟩

/-- C3 amended: logout-all deletes EVERY refresh-token record of the calling
identity (active or not) and returns the number of rows deleted — the total
number of the identity's records immediately before the call, not the
active count; afterwards any token string owned by the identity fails
redemption with invalid-token, and other identities' records survive. -/
theorem logout_all_deletes_every_own_token (db : List RefreshToken) (uid : Nat) :
    (logout_all_devices db uid).1 = (db.filter (fun t => t.user_id == uid)).length ∧
    (∀ t ∈ (logout_all_devices db uid).2, t.user_id ≠ uid) ∧
    (∀ t ∈ db, t.user_id ≠ uid → t ∈ (logout_all_devices db uid).2) ∧
    (∀ secret users now s ft fid ua,
       (∀ t ∈ db, t.token = s → t.user_id = uid) →
       refresh_access_token secret users (logout_all_devices db uid).2 now s ft fid ua
         = (.error .invalidToken, (logout_all_devices db uid).2)) := by
  refine ⟨rfl, ?_, ?_, ?_⟩
  · intro t ht
    simp only [logout_all_devices] at ht
    simpa using List.of_mem_filter ht
  · intro t ht hne
    simp only [logout_all_devices]
    exact List.mem_filter.mpr ⟨ht, by simp [hne]⟩
  · intro secret users now s ft fid ua hs
    have hnone : get_refresh_token_db (logout_all_devices db uid).2 s = none := by
      rw [← noActive_iff_lookup_none]
      intro t' h' htok hact
      have h1 : t'.user_id ≠ uid := by
        simp only [logout_all_devices] at h'
        simpa using List.of_mem_filter h'
      have h2 : t' ∈ db := by
        simp only [logout_all_devices] at h'
        exact List.mem_of_mem_filter h'
      exact h1 (hs t' h2 htok)
    exact refresh_eq_of_lookup_none hnone

/-- Witness for C3 amended: on the mixed store the count is the total row
count of user 1 and the previously active "tokenA" fails redemption. -/
theorem logout_all_deletes_every_own_token_witness :
    (logout_all_devices mixedDb 1).1
        = (mixedDb.filter (fun t => t.user_id == 1)).length ∧
    refresh_access_token "k" demoUsers (logout_all_devices mixedDb 1).2 50
        "tokenA" "freshT" 9 none
      = (.error .invalidToken, (logout_all_devices mixedDb 1).2) :=
  ⟨(logout_all_deletes_every_own_token mixedDb 1).1,
   (logout_all_deletes_every_own_token mixedDb 1).2.2.2
     "k" demoUsers 50 "tokenA" "freshT" 9 none (by decide)⟩

/-- C4 counterexample: the register endpoint answers differently depending
solely on whether the supplied email is registered ("Email already
registered" versus success), so the system as a whole does leak whether an
email is registered — refuting the claim's "no operation's response content
distinguishes a registered email from an unregistered one". -/
theorem register_reveals_email_registration :
    register demoBcryptHash demoUsers "a@x.com" "password123" none 3
      = .error "Email already registered" ∧
    isOkE (register demoBcryptHash demoUsers "b@x.com" "password123" none 3)
      = true :=
  ⟨rfl, rfl⟩

/-- C4 amended: the LOGIN flow never distinguishes an unknown account from a
wrong password — both failure modes produce the identical generic
"Incorrect email or password" error; the register endpoint, however, does
reveal registration status via its duplicate-email error. -/
theorem login_failure_is_generic (bcryptVerify : String → String → Bool)
    (secret : String) (users : List User) (db : List RefreshToken) (now : Nat)
    (email password ft : String) (fid : Nat) (ua : Option String) :
    (get_user_by_email users email = none →
       login_for_access_token bcryptVerify secret users db now email password ft fid ua
         = .error "Incorrect email or password") ∧
    (∀ u, get_user_by_email users email = some u →
       verify_password bcryptVerify password u.hashed_password = false →
       login_for_access_token bcryptVerify secret users db now email password ft fid ua
         = .error "Incorrect email or password") := by
  constructor
  · intro h
    simp [login_for_access_token, authenticate_user, h]
  · intro u hu hv
    simp [login_for_access_token, authenticate_user, hu, hv]

/-- Witness for C4 amended: with one registered account `a@x.com`, logging
in with an unknown email and logging in with a wrong password yield the
very same error value. -/
theorem login_failure_is_generic_witness :
    login_for_access_token demoBcryptVerify "k" demoUsers [] 0
        "b@x.com" "password123" "f" 1 none
      = .error "Incorrect email or password" ∧
    login_for_access_token demoBcryptVerify "k" demoUsers [] 0
        "a@x.com" "wrongpass99" "f" 1 none
      = .error "Incorrect email or password" :=
  ⟨(login_failure_is_generic demoBcryptVerify "k" demoUsers [] 0
      "b@x.com" "password123" "f" 1 none).1 (by decide),
   (login_failure_is_generic demoBcryptVerify "k" demoUsers [] 0
      "a@x.com" "wrongpass99" "f" 1 none).2 demoUser (by decide) (by decide)⟩

/-- C9 counterexample: the record for "staleToken" is present, already
deactivated, AND past expiry (expires_at 5 < now 100).  The claim demands
the expiry check first: expired-token error with the record deleted.  The
code filters on the active flag inside the lookup, so it answers
invalid-token and leaves the record in place. -/
theorem inactive_expired_token_gets_invalid_error :
    refresh_access_token "k" demoUsers staleDb 100 "staleToken" "freshT" 9 none
      = (.error .invalidToken, staleDb) :=
  rfl

/-- C9 amended: the ACTIVE flag is checked first, inside the lookup — the
lookup only ever returns active records, so an inactive token (expired or
not) falls into the absent case and yields invalid-token with the store
untouched; among active records expiry is then checked, and an expired
active record is deleted with the expired-token error.  Absent and inactive
tokens are indistinguishable in the error returned. -/
theorem refresh_checks_active_flag_in_lookup (secret : String) (users : List User)
    (db : List RefreshToken) (now : Nat) (s ft : String) (fid : Nat)
    (ua : Option String) :
    (∀ tok, get_refresh_token_db db s = some tok →
       tok.token = s ∧ tok.is_active = "true") ∧
    (get_refresh_token_db db s = none →
       refresh_access_token secret users db now s ft fid ua
         = (.error .invalidToken, db)) ∧
    (∀ tok, get_refresh_token_db db s = some tok → tok.expires_at < now →
       refresh_access_token secret users db now s ft fid ua
         = (.error .expiredToken, db.eraseP (fun t => t.id == tok.id))) := by
  refine ⟨?_, ?_, ?_⟩
  · intro tok h
    have h' := List.find?_some h
    simpa [Bool.and_eq_true, beq_iff_eq] using h'
  · intro h
    exact refresh_eq_of_lookup_none h
  · intro tok h hexp
    exact refresh_eq_of_expired h hexp

/-- Witness for C9 amended: the inactive-and-expired record yields
invalid-token with the store untouched; the active-but-expired record
yields expired-token with its row deleted. -/
theorem refresh_checks_active_flag_in_lookup_witness :
    refresh_access_token "k" demoUsers staleDb 100 "staleToken" "freshT2" 9 none
      = (.error .invalidToken, staleDb) ∧
    refresh_access_token "k" demoUsers expiredDb 100 "expiredToken" "freshT2" 9 none
      = (.error .expiredToken, expiredDb.eraseP (fun t => t.id == expiredTok.id)) :=
  ⟨(refresh_checks_active_flag_in_lookup "k" demoUsers staleDb 100
      "staleToken" "freshT2" 9 none).2.1 (by decide),
   (refresh_checks_active_flag_in_lookup "k" demoUsers expiredDb 100
      "expiredToken" "freshT2" 9 none).2.2 expiredTok (by decide) (by decide)⟩

/-- C10: per-token session revocation is owner-scoped — an id that does not
exist or belongs to another identity answers the not-found error with the
store untouched; a row is only ever deleted when it is owned by the calling
identity, and no other user's records are ever modified. -/
theorem revoke_session_owner_scoped (db : List RefreshToken) (uid tid : Nat) :
    (db.find? (fun t => t.id == tid && t.user_id == uid) = none →
       revoke_token db uid tid = (.error "Token not found", db)) ∧
    (∀ t ∈ db, t ∈ (revoke_token db uid tid).2 ∨ (t.id = tid ∧ t.user_id = uid)) ∧
    (∀ t' ∈ (revoke_token db uid tid).2, t' ∈ db) ∧
    (∀ t ∈ db, t.user_id ≠ uid → t ∈ (revoke_token db uid tid).2) := by
  have h2 : ∀ t ∈ db, t ∈ (revoke_token db uid tid).2 ∨ (t.id = tid ∧ t.user_id = uid) := by
    intro t ht
    unfold revoke_token
    cases hdb : db.find? (fun u => u.id == tid && u.user_id == uid) with
    | none => exact Or.inl ht
    | some tok =>
      rcases mem_eraseP_or_pred (p := fun u => u.id == tid && u.user_id == uid) ht
        with h1 | h1
      · exact Or.inl h1
      · right
        simpa [Bool.and_eq_true, beq_iff_eq] using h1
  refine ⟨?_, h2, ?_, ?_⟩
  · intro h
    unfold revoke_token
    rw [h]
  · intro t' h'
    unfold revoke_token at h'
    cases hdb : db.find? (fun u => u.id == tid && u.user_id == uid) with
    | none =>
      rw [hdb] at h'
      exact h'
    | some tok =>
      rw [hdb] at h'
      exact mem_of_mem_eraseP h'
  · intro t ht hne
    rcases h2 t ht with h1 | h1
    · exact h1
    · exact absurd h1.2 hne

/-- Witness for C10: user 2 asking to revoke user 1's token id 1 gets the
not-found error and the store is untouched; and user 2's own record
survives user 1's successful revocation of id 1. -/
theorem revoke_session_owner_scoped_witness :
    revoke_token crossDb 2 1 = (.error "Token not found", crossDb) ∧
    tokOther ∈ (revoke_token crossDb 1 1).2 :=
  ⟨(revoke_session_owner_scoped crossDb 2 1).1 (by decide),
   (revoke_session_owner_scoped crossDb 1 1).2.2.2 tokOther (by decide) (by decide)⟩

end FastCRM
